import Mathlib

/-!
GorodIdeiy: the map page script `static/js/main.js`.

A shallow embedding of the client script that renders ideas on a Leaflet map,
toggles the add-idea mode, opens the add-idea modal on a map click and submits
a new idea.

Modelling conventions.

* A JavaScript string is the list of its UTF-16 code units (`JSString`).
* A JavaScript number is `JSNumber`: `NaN`, an infinity, or a finite value,
  which is a rational number (every finite double is one).  The two zeros are
  not distinguished; both are falsy.
* The three script globals `mapInstance`, `addIdeaMode`, `markersLayer`, the
  parts of the page the script reads or writes, the pending timers and a log
  of the externally visible calls (`alert`, `fetch`, `console.error`) form the
  `World`.  Every script function is a function on `World`.
* A promise chain is split where the script waits for the network: the function
  that issues the request returns what its callbacks capture, and a second
  function (`ideasSettled`, `createSettled`) runs the callbacks on the world
  as it is when the request settles.
* The page is assumed to satisfy the DOM contract of the script: every element
  looked up by id or selector exists, and the Leaflet and Bootstrap calls made
  on them succeed.
-/

namespace GorodIdeiy

/-! ## Strings and numbers -/

/-- A JavaScript string: its UTF-16 code units. -/
abbrev JSString := List Nat

/-- UTF-16 encoding of one Unicode scalar value. -/
def utf16 (c : Char) : List Nat :=
  if c.toNat < 65536 then [c.toNat]
  else [55296 + (c.toNat - 65536) / 1024, 56320 + (c.toNat - 65536) % 1024]

/-- A string literal of the script, as code units. -/
def lit (s : String) : JSString := s.toList.flatMap utf16

/-- `String.prototype.substring(start, end)`: both indices are clamped to
`[0, length]` and swapped when `start > end`. -/
def substring (s : JSString) (start stop : Int) : JSString :=
  let len : Int := s.length
  let finalStart := min (max start 0) len
  let finalEnd := min (max stop 0) len
  let lo := min finalStart finalEnd
  let hi := max finalStart finalEnd
  (s.drop lo.toNat).take (hi.toNat - lo.toNat)

/-- A JavaScript number. -/
inductive JSNumber where
  | nan
  | num (q : ℚ)
  | inf (negative : Bool)
  deriving DecidableEq

/-- `ToBoolean` on a number: `NaN` and zero are falsy. -/
def JSNumber.truthy : JSNumber → Bool
  | .nan => false
  | .num q => decide (q ≠ 0)
  | .inf _ => true

/-- The expression `a || b` on numbers. -/
def jsOr (a b : JSNumber) : JSNumber := if a.truthy then a else b

/-- Decimal rendering of an integer, as `ToString` gives it for a safe integer. -/
def intToString (n : Int) : JSString :=
  if n < 0 then lit "-" ++ lit (Nat.repr n.natAbs) else lit (Nat.repr n.natAbs)

/-- `StrWhiteSpaceChar`: the white space and line terminator code units that
`parseInt` skips at the start of its input. -/
def isStrWhiteSpace (c : Nat) : Bool :=
  c ∈ [9, 10, 11, 12, 13, 32, 160, 5760, 8232, 8233, 8239, 8287, 12288, 65279]
    || (8192 ≤ c && c ≤ 8202)

/-- Value of a code unit as a digit (`0-9`, `a-z`, `A-Z`). -/
def digitValue (c : Nat) : Option Nat :=
  if 48 ≤ c ∧ c ≤ 57 then some (c - 48)
  else if 97 ≤ c ∧ c ≤ 122 then some (c - 87)
  else if 65 ≤ c ∧ c ≤ 90 then some (c - 55)
  else none

/-- Whether a code unit is a digit of the given radix. -/
def isRadixDigit (radix c : Nat) : Bool :=
  match digitValue c with
  | some d => decide (d < radix)
  | none => false

/-- The mathematical integer written by a string of radix digits. -/
def digitsValue (radix : Nat) (z : JSString) : Nat :=
  z.foldl (fun acc c => acc * radix + (digitValue c).getD 0) 0

/-- The last steps of `parseInt`: `NaN` when there is no digit, else the
signed value of the digits. -/
def parseIntResult (negative : Bool) (radix : Nat) (z : JSString) : JSNumber :=
  if z = [] then .nan
  else
    let mathInt : Int := digitsValue radix z
    .num (if negative then -mathInt else mathInt)

/-- Global `parseInt(string)` called without a radix.  The argument `none` is
`undefined`, whose `ToString` is `"undefined"`.  Leading white space is
skipped, then a sign, then a `0x` or `0X` that selects radix 16, and the
longest run of digits is read.  The result is the exact integer; the Number
the engine returns is that integer whenever its magnitude is below `2^53`, and
a non-zero Number in every other non-zero case. -/
def parseInt (input : Option JSString) : JSNumber :=
  let inputString := match input with
    | some s => s
    | none => lit "undefined"
  let s := inputString.dropWhile isStrWhiteSpace
  let negative := decide (s.head? = some 45)
  let s1 := if s.head? = some 43 ∨ s.head? = some 45 then s.tail else s
  let hex := decide (s1.take 2 = lit "0x" ∨ s1.take 2 = lit "0X")
  let radix := if hex then 16 else 10
  let s2 := if hex then s1.drop 2 else s1
  parseIntResult negative radix (s2.takeWhile (isRadixDigit radix))

/-- `Number.prototype.toFixed(6)` on a finite value (of magnitude below
`10^21`): the nearest multiple of `10^-6`, ties going away from zero, written
with exactly six decimals. -/
def toFixed6 (x : ℚ) : JSString :=
  let a := |x|
  let n : Nat := (a * 1000000 + 1 / 2).floor.toNat
  let whole := lit (Nat.repr (n / 1000000))
  let frac := lit (Nat.repr (n % 1000000))
  let body := whole ++ lit "." ++ List.replicate (6 - frac.length) 48 ++ frac
  if x < 0 then lit "-" ++ body else body

/-! ## The page and the widgets -/

/-- An idea record of the array returned by `GET /api/ideas`.  `description`
is `none` when the field is not a string (absent, `null`, a number), and then
calling `.substring` on it throws a `TypeError`. -/
structure Idea where
  id : Int
  title : JSString
  description : Option JSString
  category : JSString
  votes : Int
  lat : ℚ
  lng : ℚ
  deriving DecidableEq

/-- A marker of the marker group, with the popup bound to it (if any). -/
structure Marker where
  lat : ℚ
  lng : ℚ
  popup : Option JSString
  deriving DecidableEq

/-- A temporary marker put directly on the map by a click; `stamp` is the
identity of the marker object, by which `removeLayer` finds it. -/
structure TempMarker where
  stamp : Nat
  lat : ℚ
  lng : ℚ
  deriving DecidableEq

/-- Functions of the script that are registered as Leaflet event handlers. -/
inductive Handler where
  | onMapClickAddIdea
  deriving DecidableEq

/-- Controls added to the map. -/
inductive Control where
  | geocoder
  | attribution (text : JSString)
  deriving DecidableEq

/-- The Leaflet map object held in `mapInstance`. -/
structure MapWidget where
  center : JSNumber × JSNumber
  zoom : JSNumber
  tileLayers : List JSString
  controls : List Control
  clickHandlers : List Handler
  tempMarkers : List TempMarker
  deriving DecidableEq

/-- The element `#addIdeaBtn`: its text and its class list. -/
structure AddIdeaButton where
  textContent : JSString
  classList : List JSString
  deriving DecidableEq

/-- A child node of the submit control: a text node, or an element given by
its markup and the text of its descendants. -/
inductive Node where
  | text (data : JSString)
  | element (html : JSString) (innerText : JSString)
  deriving DecidableEq

/-- The submit control `#addIdeaModal .btn-primary`. -/
structure SubmitButton where
  children : List Node
  disabled : Bool
  deriving DecidableEq

/-- The values of the input fields of the add-idea modal. -/
structure ModalForm where
  modalTitle : JSString
  modalDescription : JSString
  modalCategory : JSString
  modalLatitude : JSString
  modalLongitude : JSString
  modalCityId : JSString
  deriving DecidableEq

/-- The object `formData` sent as the body of the create request. -/
structure NewIdeaRequest where
  title : JSString
  description : JSString
  category : JSString
  latitude : JSString
  longitude : JSString
  city_id : Option JSString
  deriving DecidableEq

/-- A call of `fetch`. -/
structure Request where
  url : JSString
  method : JSString
  contentType : Option JSString
  body : Option NewIdeaRequest
  deriving DecidableEq

/-- Calls that leave the page: blocking alerts, network requests, console
errors. -/
inductive Effect where
  | alert (message : JSString)
  | fetch (request : Request)
  | consoleError (label : JSString)
  deriving DecidableEq

/-- A notification banner appended to the document body. -/
structure Banner where
  stamp : Nat
  className : JSString
  message : JSString
  deriving DecidableEq

/-- What a pending `setTimeout` callback does. -/
inductive TimerAction where
  | loadIdeasOnMap
  | removeBanner (stamp : Nat)
  deriving DecidableEq

/-- A pending timer: the handle `setTimeout` returned, the time at which it
becomes due (milliseconds) and its callback. -/
structure Timer where
  handle : Nat
  due : Nat
  action : TimerAction
  deriving DecidableEq

/-- The state of the page as far as the script reads or writes it. -/
structure World where
  mapInstance : Option MapWidget
  addIdeaMode : Bool
  markersLayer : Option (List Marker)
  addIdeaBtn : AddIdeaButton
  form : ModalForm
  submitBtn : SubmitButton
  modalVisible : Bool
  modalHiddenListeners : List Nat
  banners : List Banner
  timers : List Timer
  now : Nat
  fresh : Nat
  log : List Effect
  deriving DecidableEq

/-- How a `fetch(...).then(r => r.json())` chain settles: with the parsed body,
or with a rejection (transport failure, a body that is not JSON, or a body of
the wrong shape on which the callback throws at once). -/
inductive FetchOutcome (α : Type) where
  | response (data : α)
  | failed

/-- The body of the create response as the callback reads it: the truthiness
of `data.success` and `data.message` (`none` when `undefined`). -/
structure CreateResponse where
  success : Bool
  message : Option JSString
  deriving DecidableEq

/-! ## `loadIdeasOnMap` -/

/-- The text `idea.description.substring(0, 100)` followed by `...`, as the
popup template writes it. -/
def descriptionSnippet (description : JSString) : JSString :=
  substring description 0 100 ++ lit "..."

/-- The part of the popup template before the description text. -/
def popupHead (idea : Idea) : JSString :=
  lit "\n                        <div class=\"map-popup\">\n                            <h6>"
    ++ idea.title
    ++ lit "</h6>\n                            <p><small>"
    ++ idea.category ++ lit " | 👍 " ++ intToString idea.votes
    ++ lit "</small></p>\n                            <p>"

/-- The part of the popup template after the description text. -/
def popupTail (idea : Idea) : JSString :=
  lit "</p>\n                            <a href=\"/idea/"
    ++ intToString idea.id
    ++ lit "\" class=\"btn btn-sm btn-primary\">Подробнее</a>\n                        </div>\n                    "

/-- The template literal passed to `bindPopup`; evaluating it throws when the
description is not a string. -/
def popupContent (idea : Idea) : Option JSString :=
  match idea.description with
  | some d => some (popupHead idea ++ descriptionSnippet d ++ popupTail idea)
  | none => none

/-- The request for the idea list. -/
def ideasRequest : Request :=
  { url := lit "/api/ideas", method := lit "GET", contentType := none, body := none }

/-- `loadIdeasOnMap()` up to the point where it waits for the response: when
the map and the marker group exist, the group is cleared and the idea list is
requested. -/
def loadIdeasOnMap (w : World) : World :=
  match w.mapInstance, w.markersLayer with
  | some _, some _ =>
    { w with markersLayer := some [], log := w.log ++ [Effect.fetch ideasRequest] }
  | _, _ => w

/-- One pass of the `forEach` callback.  The marker is added to the group
before the popup template is evaluated, so a throwing template leaves a marker
without popup behind.  The flag tells whether the callback returned normally. -/
def renderIdea (idea : Idea) (w : World) : World × Bool :=
  match w.markersLayer with
  | none => (w, false)
  | some ms =>
    let marker : Marker := { lat := idea.lat, lng := idea.lng, popup := none }
    match popupContent idea with
    | none => ({ w with markersLayer := some (ms ++ [marker]) }, false)
    | some html =>
      ({ w with markersLayer := some (ms ++ [{ marker with popup := some html }]) }, true)

/-- The loop `ideas.forEach(...)`: stops at the first callback that throws. -/
def forEachIdea : List Idea → World → World × Bool
  | [], w => (w, true)
  | idea :: rest, w =>
    match renderIdea idea w with
    | (w1, true) => forEachIdea rest w1
    | (w1, false) => (w1, false)

/-- The callbacks of `loadIdeasOnMap` once its request has settled: the
markers are rendered, and any failure is logged to the console only. -/
def ideasSettled (outcome : FetchOutcome (List Idea)) (w : World) : World :=
  match outcome with
  | .failed => { w with log := w.log ++ [Effect.consoleError (lit "Ошибка загрузки идей:")] }
  | .response ideas =>
    match forEachIdea ideas w with
    | (w1, true) => w1
    | (w1, false) =>
      { w1 with log := w1.log ++ [Effect.consoleError (lit "Ошибка загрузки идей:")] }

/-! ## `initMap` and the page-load handler -/

/-- `initMap(lat, lng, zoom)`: creates the map, its tile layer, the marker
group and the geocoder control and loads the ideas, unless a map exists
already; returns `mapInstance`. -/
def initMap (lat lng zoom : JSNumber) (w : World) : World × Option MapWidget :=
  match w.mapInstance with
  | some m => (w, some m)
  | none =>
    let m : MapWidget :=
      { center := (lat, lng), zoom := zoom,
        tileLayers := [lit "https://\x7bs\x7d.tile.openstreetmap.org/\x7bz\x7d/\x7bx\x7d/\x7by\x7d.png"],
        controls := [Control.geocoder], clickHandlers := [], tempMarkers := [] }
    let w1 := loadIdeasOnMap { w with mapInstance := some m, markersLayer := some [] }
    (w1, w1.mapInstance)

/-- The `data-lat`, `data-lng` and `data-zoom` attributes of the element
`#map`; `none` is a missing attribute (`undefined`). -/
structure MapDataset where
  lat : Option JSString
  lng : Option JSString
  zoom : Option JSString
  deriving DecidableEq

/-- The fallback latitude `55.7558`. -/
def defaultLat : JSNumber := .num (557558 / 10000)

/-- The fallback longitude `37.6173`. -/
def defaultLng : JSNumber := .num (376173 / 10000)

/-- The fallback zoom `10`. -/
def defaultZoom : JSNumber := .num 10

/-- The three arguments the page-load handler passes to `initMap`.  The
built-in `parseFloat` yields a double and is a parameter. -/
def mapInitArgs (parseFloat : Option JSString → JSNumber) (data : MapDataset) :
    JSNumber × JSNumber × JSNumber :=
  (jsOr (parseFloat data.lat) defaultLat,
   jsOr (parseFloat data.lng) defaultLng,
   jsOr (parseInt data.zoom) defaultZoom)

/-- The map part of the `DOMContentLoaded` handler: when the page has an
element `#map` (given by its dataset), the map is initialised from it. -/
def pageLoaded (parseFloat : Option JSString → JSNumber) (mapElement : Option MapDataset)
    (w : World) : World :=
  match mapElement with
  | some data =>
    let args := mapInitArgs parseFloat data
    (initMap args.1 args.2.1 args.2.2 w).1
  | none => w

/-! ## `toggleAddIdeaMode` -/

/-- Leaflet `on`: registers a listener unless this very function is registered
already. -/
def listenOn (handlers : List Handler) (h : Handler) : List Handler :=
  if h ∈ handlers then handlers else handlers ++ [h]

/-- Leaflet `off`: removes the listener. -/
def listenOff (handlers : List Handler) (h : Handler) : List Handler :=
  handlers.erase h

/-- `classList.remove(token)`. -/
def classRemove (classes : List JSString) (token : JSString) : List JSString :=
  classes.filter (fun c => decide (c ≠ token))

/-- `classList.add(token)`: appends the token unless it is present. -/
def classAdd (classes : List JSString) (token : JSString) : List JSString :=
  if token ∈ classes then classes else classes ++ [token]

/-- `toggleAddIdeaMode()`. -/
def toggleAddIdeaMode (w : World) : World :=
  let w1 := { w with addIdeaMode := !w.addIdeaMode }
  match w1.mapInstance with
  | some m =>
    if w1.addIdeaMode then
      { w1 with
        mapInstance := some
          { m with
            clickHandlers := listenOn m.clickHandlers Handler.onMapClickAddIdea,
            controls := m.controls ++
              [Control.attribution (lit "Кликните на карте для добавления идеи")] },
        addIdeaBtn :=
          { textContent := lit "Отменить добавление",
            classList :=
              classAdd (classRemove w1.addIdeaBtn.classList (lit "btn-success"))
                (lit "btn-warning") } }
    else
      { w1 with
        mapInstance := some
          { m with clickHandlers := listenOff m.clickHandlers Handler.onMapClickAddIdea },
        addIdeaBtn :=
          { textContent := lit "Добавить идею на карте",
            classList :=
              classAdd (classRemove w1.addIdeaBtn.classList (lit "btn-warning"))
                (lit "btn-success") } }
  | none => w1

/-! ## `onMapClickAddIdea` and the modal close event -/

/-- `onMapClickAddIdea(e)` for a click at `(lat, lng)`: fills the coordinate
fields, shows the modal, puts a temporary marker on the map and registers a
one-time `hidden.bs.modal` listener that captures this marker.  Without a map
the handler throws at `addTo` and registers nothing. -/
def onMapClickAddIdea (lat lng : ℚ) (w : World) : World :=
  let w1 :=
    { w with
      form := { w.form with modalLatitude := toFixed6 lat, modalLongitude := toFixed6 lng },
      modalVisible := true }
  match w1.mapInstance with
  | none => w1
  | some m =>
    let tempMarker : TempMarker := { stamp := w1.fresh, lat := lat, lng := lng }
    { w1 with
      mapInstance := some { m with tempMarkers := m.tempMarkers ++ [tempMarker] },
      fresh := w1.fresh + 1,
      modalHiddenListeners := w1.modalHiddenListeners ++ [tempMarker.stamp] }

/-- The body of one `hidden.bs.modal` listener, for the marker it captured:
`if (mapInstance && tempMarker) mapInstance.removeLayer(tempMarker)`. -/
def removeTempMarker (w : World) (stamp : Nat) : World :=
  match w.mapInstance with
  | some m =>
    { w with
      mapInstance := some
        { m with tempMarkers := m.tempMarkers.filter (fun t => decide (t.stamp ≠ stamp)) } }
  | none => w

/-- The event `hidden.bs.modal` on `#addIdeaModal`: every registered listener
runs, in registration order, and being `once` is removed. -/
def modalHidden (w : World) : World :=
  w.modalHiddenListeners.foldl removeTempMarker
    { w with modalVisible := false, modalHiddenListeners := [] }

/-! ## Timers and `showNotification` -/

/-- `setTimeout(callback, delay)`. -/
def setTimeout (action : TimerAction) (delay : Nat) (w : World) : World :=
  { w with
    timers := w.timers ++ [{ handle := w.fresh, due := w.now + delay, action := action }],
    fresh := w.fresh + 1 }

/-- `showNotification(message, type)`: appends a banner to the body and
schedules its removal after 5 seconds. -/
def showNotification (message type : JSString) (w : World) : World :=
  let alertDiv : Banner :=
    { stamp := w.fresh,
      className := lit "alert alert-" ++ type ++ lit " alert-dismissible fade show position-fixed",
      message := message }
  setTimeout (TimerAction.removeBanner alertDiv.stamp) 5000
    { w with banners := w.banners ++ [alertDiv], fresh := w.fresh + 1 }

/-- Runs the callback of a timer. -/
def runTimer (w : World) (t : Timer) : World :=
  match t.action with
  | .loadIdeasOnMap => loadIdeasOnMap w
  | .removeBanner stamp =>
    { w with banners := w.banners.filter (fun b => decide (b.stamp ≠ stamp)) }

/-- The event loop lets the clock reach `time`: the timers due by then run,
earliest first, and the others stay pending. -/
def advance (time : Nat) (w : World) : World :=
  let clock := max w.now time
  let due := (w.timers.filter (fun t => decide (t.due ≤ clock))).insertionSort
    (fun a b => a.due ≤ b.due)
  let pending := w.timers.filter (fun t => decide (¬ t.due ≤ clock))
  due.foldl runTimer { w with now := clock, timers := pending }

/-! ## `submitIdeaFromMap` -/

/-- What the callbacks of the create request capture: `originalText`. -/
structure SubmitPending where
  originalText : JSString
  deriving DecidableEq

/-- The getter `textContent` of the submit control. -/
def SubmitButton.textContent (b : SubmitButton) : JSString :=
  (b.children.map (fun n =>
    match n with
    | .text data => data
    | .element _ innerText => innerText)).flatten

/-- The setter `textContent = s`: the children are replaced by one text node,
or by nothing when `s` is empty. -/
def SubmitButton.setTextContent (b : SubmitButton) (s : JSString) : SubmitButton :=
  { b with children := if s = [] then [] else [Node.text s] }

/-- The children that `innerHTML = '<span ...></span> Отправка...'` produces. -/
def busyChildren : List Node :=
  [Node.element
      (lit "<span class=\"spinner-border spinner-border-sm\" role=\"status\"></span>") [],
    Node.text (lit " Отправка...")]

/-- The create request. -/
def createRequest (formData : NewIdeaRequest) : Request :=
  { url := lit "/api/add_idea_from_map", method := lit "POST",
    contentType := some (lit "application/json"), body := some formData }

/-- The object `formData` built from the form fields. -/
def formDataOf (w : World) : NewIdeaRequest :=
  { title := w.form.modalTitle,
    description := w.form.modalDescription,
    category := w.form.modalCategory,
    latitude := w.form.modalLatitude,
    longitude := w.form.modalLongitude,
    city_id := if w.form.modalCityId = [] then none else some w.form.modalCityId }

/-- `submitIdeaFromMap()` up to the point where it waits for the response.
Returns `none` when validation fails, and the captured `originalText` when the
request has been sent. -/
def submitIdeaFromMap (w : World) : World × Option SubmitPending :=
  let formData := formDataOf w
  if formData.title = [] ∨ formData.description = [] ∨ formData.category = [] then
    ({ w with log := w.log ++
        [Effect.alert (lit "Пожалуйста, заполните все обязательные поля")] }, none)
  else
    let originalText := w.submitBtn.textContent
    ({ w with
        submitBtn := { children := busyChildren, disabled := true },
        log := w.log ++ [Effect.fetch (createRequest formData)] },
      some { originalText := originalText })

/-- The string `'Ошибка: ' + data.message`. -/
def errorMessage (message : Option JSString) : JSString :=
  lit "Ошибка: " ++ (match message with
    | some m => m
    | none => lit "undefined")

/-- The `then`/`catch` callbacks of the create request. -/
def createHandled (outcome : FetchOutcome CreateResponse) (w : World) : World :=
  match outcome with
  | .response data =>
    if data.success then
      setTimeout TimerAction.loadIdeasOnMap 1000
        (showNotification (lit "Идея успешно добавлена! Она появится после модерации.")
          (lit "success") { w with modalVisible := false })
    else
      { w with log := w.log ++ [Effect.alert (errorMessage data.message)] }
  | .failed =>
    { w with log := w.log ++
        [Effect.consoleError (lit "Error:"), Effect.alert (lit "Произошла ошибка при отправке")] }

/-- The callbacks of `submitIdeaFromMap` once the create request has settled:
the `then`/`catch` callbacks, then the `finally` callback that restores the
submit control. -/
def createSettled (k : SubmitPending) (outcome : FetchOutcome CreateResponse)
    (w : World) : World :=
  let w1 := createHandled outcome w
  { w1 with
    submitBtn := { (w1.submitBtn.setTextContent k.originalText) with disabled := false } }

/-! ## Observations used in the statements -/

/-- The marker the `forEach` callback makes of an idea with this popup. -/
def markerOf (idea : Idea) : Marker :=
  { lat := idea.lat, lng := idea.lng, popup := popupContent idea }

/-- The network requests among logged effects. -/
def requestsOf (log : List Effect) : List Request :=
  log.filterMap (fun e =>
    match e with
    | .fetch r => some r
    | _ => none)

/-- The world after a create response with a truthy `success` has been handled
and the submit control restored. -/
def afterSuccess (k : SubmitPending) (message : Option JSString) (w : World) : World :=
  createSettled k (FetchOutcome.response { success := true, message := message }) w

/-- The world after a create response with a falsy `success` has been handled
and the submit control restored. -/
def afterFailure (k : SubmitPending) (message : Option JSString) (w : World) : World :=
  createSettled k (FetchOutcome.response { success := false, message := message }) w

/-- The click handlers registered on the map, if there is a map. -/
def clickHandlersOf (w : World) : Option (List Handler) :=
  w.mapInstance.map (fun m => m.clickHandlers)

/-- The temporary markers on the map (none without a map). -/
def tempMarkersOf (w : World) : List TempMarker :=
  match w.mapInstance with
  | some m => m.tempMarkers
  | none => []

/-- A sequence of map clicks, each handled by `onMapClickAddIdea`. -/
def clickAll (clicks : List (ℚ × ℚ)) (w : World) : World :=
  clicks.foldl (fun v e => onMapClickAddIdea e.1 e.2 v) w

/-- The markers that a sequence of clicks creates when the first of them gets
the given stamp. -/
def createdMarkers : Nat → List (ℚ × ℚ) → List TempMarker
  | _, [] => []
  | stamp, e :: rest => { stamp := stamp, lat := e.1, lng := e.2 } :: createdMarkers (stamp + 1) rest

/-! ## Sample pages -/

/-- A page before the script has run: no map yet, an empty form. -/
def samplePage : World :=
  { mapInstance := none, addIdeaMode := false, markersLayer := none,
    addIdeaBtn :=
      { textContent := lit "Добавить идею на карте", classList := [lit "btn", lit "btn-success"] },
    form :=
      { modalTitle := [], modalDescription := [], modalCategory := [],
        modalLatitude := [], modalLongitude := [], modalCityId := [] },
    submitBtn := { children := [Node.text (lit "Отправить")], disabled := false },
    modalVisible := false, modalHiddenListeners := [], banners := [], timers := [],
    now := 0, fresh := 0, log := [] }

/-- The sample page after the page-load handler has run on a `#map` element
without data attributes. -/
def sampleMapPage : World :=
  pageLoaded (fun _ => JSNumber.nan) (some { lat := none, lng := none, zoom := none }) samplePage

/-- The idea of the example scenario: description `A` followed by 150 `x`. -/
def bikeLane : Idea :=
  { id := 1, title := lit "Bike lane", description := some (lit "A" ++ List.replicate 150 120),
    category := lit "transport", votes := 5, lat := 5575 / 100, lng := 3761 / 100 }

/-- A page whose marker group already holds a marker. -/
def sampleMapPageWithMarker : World :=
  { sampleMapPage with markersLayer := some [{ lat := 1, lng := 2, popup := none }] }

/-- A form with the three required fields filled in, on the sample map page. -/
def sampleFilledPage : World :=
  { sampleMapPage with
    form :=
      { modalTitle := lit "Bike lane", modalDescription := lit "A lane", modalCategory := lit "transport",
        modalLatitude := lit "55.750000", modalLongitude := lit "37.610000", modalCityId := [] } }

/-! ## Rendering the idea list -/

theorem substring_zero_hundred (s : JSString) : substring s 0 100 = s.take 100 := by
  unfold substring
  simp
  omega

theorem descriptionSnippet_eq (d : JSString) :
    descriptionSnippet d = d.take 100 ++ lit "..." := by
  unfold descriptionSnippet
  rw [substring_zero_hundred]

theorem forEachIdea_wellFormed (ideas : List Idea) (w : World) (ms : List Marker)
    (hgroup : w.markersLayer = some ms)
    (hwf : ∀ idea ∈ ideas, idea.description ≠ none) :
    forEachIdea ideas w = ({ w with markersLayer := some (ms ++ ideas.map markerOf) }, true) := by
  induction ideas generalizing w ms with
  | nil =>
    cases w
    simp_all [forEachIdea]
  | cons idea rest ih =>
    have hd : idea.description ≠ none := hwf idea (List.mem_cons_self _ _)
    obtain ⟨d, hd⟩ := Option.ne_none_iff_exists'.mp hd
    have hrest : ∀ i ∈ rest, i.description ≠ none := fun i hi => hwf i (List.mem_cons_of_mem _ hi)
    have hstep : renderIdea idea w
        = ({ w with markersLayer := some (ms ++ [markerOf idea]) }, true) := by
      simp [renderIdea, hgroup, popupContent, hd, markerOf]
    simp only [forEachIdea, hstep]
    rw [ih _ (ms ++ [markerOf idea]) rfl hrest]
    simp

theorem loadIdeasOnMap_initialised (w : World) (m : MapWidget) (ms : List Marker)
    (hmap : w.mapInstance = some m) (hgroup : w.markersLayer = some ms) :
    loadIdeasOnMap w
      = { w with markersLayer := some [], log := w.log ++ [Effect.fetch ideasRequest] } := by
  simp [loadIdeasOnMap, hmap, hgroup]

theorem refresh_markers (w : World) (m : MapWidget) (ms : List Marker) (ideas : List Idea)
    (hmap : w.mapInstance = some m) (hgroup : w.markersLayer = some ms)
    (hwf : ∀ idea ∈ ideas, idea.description ≠ none) :
    (ideasSettled (FetchOutcome.response ideas) (loadIdeasOnMap w)).markersLayer
      = some (ideas.map markerOf) := by
  rw [loadIdeasOnMap_initialised w m ms hmap hgroup]
  simp only [ideasSettled]
  rw [forEachIdea_wellFormed ideas _ [] rfl hwf]
  simp

theorem isSome_get {α : Type} (o : Option α) (h : o.isSome = true) : ∃ a, o = some a :=
  Option.isSome_iff_exists.mp h

/-- C1: for every well-formed idea array delivered to `loadIdeasOnMap` on an
initialised map, the popup of each idea's marker carries, between the head and
the tail of the template, the first 100 code units of the idea's description
(the whole description when it has fewer than 100) followed by `...`. -/
theorem popup_description_truncated (w : World) (ideas : List Idea)
    (hmap : w.mapInstance.isSome = true) (hgroup : w.markersLayer.isSome = true)
    (hwf : ∀ idea ∈ ideas, idea.description ≠ none) :
    ∃ rendered,
      (ideasSettled (FetchOutcome.response ideas) (loadIdeasOnMap w)).markersLayer = some rendered ∧
      List.Forall₂
        (fun idea marker => ∀ d, idea.description = some d →
          marker.popup = some (popupHead idea ++ (d.take 100 ++ lit "...") ++ popupTail idea) ∧
          (d.length < 100 → d.take 100 = d))
        ideas rendered := by
  obtain ⟨m, hm⟩ := isSome_get _ hmap
  obtain ⟨ms, hms⟩ := isSome_get _ hgroup
  refine ⟨ideas.map markerOf, refresh_markers w m ms ideas hm hms hwf, ?_⟩
  rw [List.forall₂_map_right_iff]
  apply List.forall₂_same.mpr
  intro idea _ d hd
  refine ⟨?_, fun hlen => List.take_of_length_le (by omega)⟩
  simp [markerOf, popupContent, hd, descriptionSnippet_eq]

/-- Witness of C1, the example scenario: one idea whose description is `A`
followed by 150 `x`. -/
theorem popup_description_truncated_witness :
    (sampleMapPage.mapInstance.isSome = true ∧ sampleMapPage.markersLayer.isSome = true ∧
      ∀ idea ∈ [bikeLane], idea.description ≠ none) ∧
    ∃ rendered,
      (ideasSettled (FetchOutcome.response [bikeLane])
        (loadIdeasOnMap sampleMapPage)).markersLayer = some rendered ∧
      List.Forall₂
        (fun idea marker => ∀ d, idea.description = some d →
          marker.popup = some (popupHead idea ++ (d.take 100 ++ lit "...") ++ popupTail idea) ∧
          (d.length < 100 → d.take 100 = d))
        [bikeLane] rendered :=
  ⟨⟨by decide, by decide, by decide⟩,
    popup_description_truncated sampleMapPage [bikeLane] (by decide) (by decide) (by decide)⟩

/-- The example scenario of the specification: for the description `A`
followed by 150 `x` the popup text is `A`, 99 `x`, and `...`. -/
theorem descriptionSnippet_example :
    descriptionSnippet (lit "A" ++ List.replicate 150 120)
      = lit "A" ++ List.replicate 99 120 ++ lit "..." := by
  rw [descriptionSnippet_eq]
  rfl

/-- C2: on an initialised map, whatever the marker group held before,
`loadIdeasOnMap` empties the group, and once a well-formed idea array has been
delivered the group holds exactly one marker per idea, at the idea's
coordinates and in the order of the array. -/
theorem marker_count_equals_idea_count (w : World) (ideas : List Idea)
    (hmap : w.mapInstance.isSome = true) (hgroup : w.markersLayer.isSome = true)
    (hwf : ∀ idea ∈ ideas, idea.description ≠ none) :
    (loadIdeasOnMap w).markersLayer = some [] ∧
    ∃ rendered,
      (ideasSettled (FetchOutcome.response ideas) (loadIdeasOnMap w)).markersLayer = some rendered ∧
      rendered.length = ideas.length ∧
      rendered.map (fun marker => (marker.lat, marker.lng))
        = ideas.map (fun idea => (idea.lat, idea.lng)) := by
  obtain ⟨m, hm⟩ := isSome_get _ hmap
  obtain ⟨ms, hms⟩ := isSome_get _ hgroup
  refine ⟨by rw [loadIdeasOnMap_initialised w m ms hm hms], ideas.map markerOf,
    refresh_markers w m ms ideas hm hms hwf, by simp, ?_⟩
  simp [List.map_map, Function.comp_def, markerOf]

/-- Witness of C2: a group holding one old marker, refreshed with two ideas. -/
theorem marker_count_equals_idea_count_witness :
    (sampleMapPageWithMarker.mapInstance.isSome = true ∧
      sampleMapPageWithMarker.markersLayer.isSome = true ∧
      ∀ idea ∈ [bikeLane, bikeLane], idea.description ≠ none) ∧
    ((loadIdeasOnMap sampleMapPageWithMarker).markersLayer = some [] ∧
    ∃ rendered,
      (ideasSettled (FetchOutcome.response [bikeLane, bikeLane])
        (loadIdeasOnMap sampleMapPageWithMarker)).markersLayer = some rendered ∧
      rendered.length = [bikeLane, bikeLane].length ∧
      rendered.map (fun marker => (marker.lat, marker.lng))
        = [bikeLane, bikeLane].map (fun idea => (idea.lat, idea.lng))) :=
  ⟨⟨by decide, by decide, by decide⟩,
    marker_count_equals_idea_count sampleMapPageWithMarker [bikeLane, bikeLane]
      (by decide) (by decide) (by decide)⟩

/-! ## Submitting an idea -/

theorem setTextContent_textContent (b : SubmitButton) (s : JSString) :
    (b.setTextContent s).textContent = s := by
  unfold SubmitButton.setTextContent SubmitButton.textContent
  by_cases h : s = []
  · simp [h]
  · simp [h]

theorem textContent_of_disabled (b : SubmitButton) (d : Bool) :
    SubmitButton.textContent { b with disabled := d } = b.textContent := rfl

theorem submitIdeaFromMap_rejected (w : World)
    (h : w.form.modalTitle = [] ∨ w.form.modalDescription = [] ∨ w.form.modalCategory = []) :
    submitIdeaFromMap w =
      ({ w with log := w.log ++
          [Effect.alert (lit "Пожалуйста, заполните все обязательные поля")] }, none) := by
  have h1 : (formDataOf w).title = [] ∨ (formDataOf w).description = [] ∨
      (formDataOf w).category = [] := h
  unfold submitIdeaFromMap
  simp only [if_pos h1]

theorem submitIdeaFromMap_sent (w : World)
    (h : ¬ (w.form.modalTitle = [] ∨ w.form.modalDescription = [] ∨ w.form.modalCategory = [])) :
    submitIdeaFromMap w =
      ({ w with
          submitBtn := { children := busyChildren, disabled := true },
          log := w.log ++ [Effect.fetch (createRequest (formDataOf w))] },
        some { originalText := w.submitBtn.textContent }) := by
  have h1 : ¬ ((formDataOf w).title = [] ∨ (formDataOf w).description = [] ∨
      (formDataOf w).category = []) := h
  unfold submitIdeaFromMap
  simp only [if_neg h1]

/-- C3: when one of title, description, category is empty, `submitIdeaFromMap`
only shows the alert: no request is issued, nothing is captured for a callback
and the rest of the page, the submit control included, is unchanged.  When the
three are non-empty it issues exactly one request, the POST to
`/api/add_idea_from_map` with the form data as body. -/
theorem submit_validates_required_fields (w : World) :
    ((w.form.modalTitle = [] ∨ w.form.modalDescription = [] ∨ w.form.modalCategory = []) →
      submitIdeaFromMap w =
        ({ w with log := w.log ++
            [Effect.alert (lit "Пожалуйста, заполните все обязательные поля")] }, none) ∧
      requestsOf (submitIdeaFromMap w).1.log = requestsOf w.log ∧
      (submitIdeaFromMap w).1.submitBtn = w.submitBtn) ∧
    (¬ (w.form.modalTitle = [] ∨ w.form.modalDescription = [] ∨ w.form.modalCategory = []) →
      (submitIdeaFromMap w).2 = some { originalText := w.submitBtn.textContent } ∧
      (submitIdeaFromMap w).1.log = w.log ++ [Effect.fetch (createRequest (formDataOf w))] ∧
      requestsOf (submitIdeaFromMap w).1.log
        = requestsOf w.log ++ [createRequest (formDataOf w)] ∧
      (createRequest (formDataOf w)).url = lit "/api/add_idea_from_map" ∧
      (createRequest (formDataOf w)).method = lit "POST") := by
  constructor
  · intro h
    rw [submitIdeaFromMap_rejected w h]
    simp [requestsOf]
  · intro h
    rw [submitIdeaFromMap_sent w h]
    simp [requestsOf, createRequest]

/-- Witness of C3: the empty form of the sample page is rejected, the filled
form is posted. -/
theorem submit_validates_required_fields_witness :
    (submitIdeaFromMap sampleMapPage).2 = none ∧
    requestsOf (submitIdeaFromMap sampleMapPage).1.log = requestsOf sampleMapPage.log ∧
    requestsOf (submitIdeaFromMap sampleFilledPage).1.log
      = requestsOf sampleFilledPage.log ++ [createRequest (formDataOf sampleFilledPage)] := by
  have h1 := (submit_validates_required_fields sampleMapPage).1 (by decide)
  have h2 := (submit_validates_required_fields sampleFilledPage).2 (by decide)
  exact ⟨by rw [h1.1], h1.2.1, h2.2.2.1⟩

/-- C4: whatever the outcome of the create request and whatever the page looks
like when it settles, afterwards the submit control is enabled and its text is
the text it had when `submitIdeaFromMap` was called. -/
theorem submit_button_restored (w : World) (k : SubmitPending)
    (hsent : (submitIdeaFromMap w).2 = some k)
    (outcome : FetchOutcome CreateResponse) (atSettle : World) :
    (createSettled k outcome atSettle).submitBtn.disabled = false ∧
    (createSettled k outcome atSettle).submitBtn.textContent = w.submitBtn.textContent := by
  have hk : k.originalText = w.submitBtn.textContent := by
    by_cases h : w.form.modalTitle = [] ∨ w.form.modalDescription = [] ∨ w.form.modalCategory = []
    · rw [submitIdeaFromMap_rejected w h] at hsent
      simp at hsent
    · rw [submitIdeaFromMap_sent w h] at hsent
      simp at hsent
      rw [← hsent]
  constructor
  · simp [createSettled]
  · simp only [createSettled]
    rw [textContent_of_disabled, setTextContent_textContent, hk]

/-- Witness of C4: the filled form is submitted, the server answers
`success: false`, and the control is back as it was. -/
theorem submit_button_restored_witness :
    (submitIdeaFromMap sampleFilledPage).2 = some { originalText := lit "Отправить" } ∧
    (createSettled { originalText := lit "Отправить" }
        (FetchOutcome.response { success := false, message := none })
        (submitIdeaFromMap sampleFilledPage).1).submitBtn.disabled = false ∧
    (createSettled { originalText := lit "Отправить" }
        (FetchOutcome.response { success := false, message := none })
        (submitIdeaFromMap sampleFilledPage).1).submitBtn.textContent
      = sampleFilledPage.submitBtn.textContent :=
  ⟨by decide,
    submit_button_restored sampleFilledPage { originalText := lit "Отправить" } (by decide)
      (FetchOutcome.response { success := false, message := none })
      (submitIdeaFromMap sampleFilledPage).1⟩

/-- On the sample page the scheduled refresh does run once the clock has
advanced by 1000 ms: the idea list is requested again. -/
theorem refresh_runs_when_due :
    (advance 1000 (afterSuccess { originalText := lit "Отправить" } none sampleFilledPage)).log
      = sampleFilledPage.log ++ [Effect.fetch ideasRequest] := by
  decide

/-- C6: on a create response whose `success` is false the modal is left as it
is, no banner is added and no timer scheduled; the one effect is a blocking
alert whose text is `Ошибка: ` followed by the server's message, and the
submit control ends enabled with the text it had before the submission. -/
theorem failure_response_handled (w0 : World) (k : SubmitPending)
    (hsent : (submitIdeaFromMap w0).2 = some k) (message : Option JSString) (w : World) :
    (afterFailure k message w).modalVisible = w.modalVisible ∧
    (afterFailure k message w).banners = w.banners ∧
    (afterFailure k message w).timers = w.timers ∧
    (afterFailure k message w).markersLayer = w.markersLayer ∧
    (afterFailure k message w).log = w.log ++ [Effect.alert (errorMessage message)] ∧
    (∀ m, message = some m → errorMessage message = lit "Ошибка: " ++ m) ∧
    (afterFailure k message w).submitBtn.disabled = false ∧
    (afterFailure k message w).submitBtn.textContent = w0.submitBtn.textContent := by
  have hk : k.originalText = w0.submitBtn.textContent := by
    by_cases h : w0.form.modalTitle = [] ∨ w0.form.modalDescription = [] ∨ w0.form.modalCategory = []
    · rw [submitIdeaFromMap_rejected w0 h] at hsent
      simp at hsent
    · rw [submitIdeaFromMap_sent w0 h] at hsent
      simp at hsent
      rw [← hsent]
  refine ⟨rfl, rfl, rfl, rfl, ?_, ?_, rfl, ?_⟩
  · simp [afterFailure, createSettled, createHandled]
  · intro m hm
    simp [errorMessage, hm]
  · simp only [afterFailure, createSettled]
    rw [textContent_of_disabled, setTextContent_textContent, hk]

/-- Witness of C6: the filled sample form, answered with `success: false` and
the message `busy`. -/
theorem failure_response_handled_witness :
    (submitIdeaFromMap sampleFilledPage).2 = some { originalText := lit "Отправить" } ∧
    (afterFailure { originalText := lit "Отправить" } (some (lit "busy"))
        (submitIdeaFromMap sampleFilledPage).1).log
      = (submitIdeaFromMap sampleFilledPage).1.log
          ++ [Effect.alert (errorMessage (some (lit "busy")))] ∧
    (afterFailure { originalText := lit "Отправить" } (some (lit "busy"))
        (submitIdeaFromMap sampleFilledPage).1).submitBtn.textContent
      = sampleFilledPage.submitBtn.textContent := by
  have h := failure_response_handled sampleFilledPage { originalText := lit "Отправить" }
    (by decide) (some (lit "busy")) (submitIdeaFromMap sampleFilledPage).1
  exact ⟨by decide, h.2.2.2.2.1, h.2.2.2.2.2.2.2⟩

/-! ## Toggling the add-idea mode -/

theorem mem_classAdd (classes : List JSString) (token c : JSString) :
    c ∈ classAdd classes token ↔ c ∈ classes ∨ c = token := by
  unfold classAdd
  split
  · constructor
    · exact Or.inl
    · rintro (h | h)
      · exact h
      · rw [h]; assumption
  · simp

theorem mem_classRemove (classes : List JSString) (token c : JSString) :
    c ∈ classRemove classes token ↔ c ∈ classes ∧ c ≠ token := by
  simp [classRemove]

theorem listenOff_listenOn (handlers : List Handler) (h : Handler) (hnot : h ∉ handlers) :
    listenOff (listenOn handlers h) h = handlers := by
  unfold listenOff listenOn
  rw [if_neg hnot, List.erase_append_right _ hnot]
  simp

/-- C7: from the inactive state on an initialised map (mode off, handler not
registered, button labelled `Добавить идею на карте` with `btn-success` and
without `btn-warning`), one toggle arms the mode (handler registered, label
and classes swapped) and the second toggle brings the mode flag, the
registered click handlers, the label and the set of classes back to what they
were. -/
theorem toggle_twice_restores (w : World)
    (hmap : w.mapInstance.isSome = true) (hmode : w.addIdeaMode = false)
    (hdetached : ∀ handlers, clickHandlersOf w = some handlers →
      Handler.onMapClickAddIdea ∉ handlers)
    (hlabel : w.addIdeaBtn.textContent = lit "Добавить идею на карте")
    (hsuccess : lit "btn-success" ∈ w.addIdeaBtn.classList)
    (hwarning : lit "btn-warning" ∉ w.addIdeaBtn.classList) :
    ((toggleAddIdeaMode w).addIdeaMode = true ∧
      (∃ handlers, clickHandlersOf (toggleAddIdeaMode w) = some handlers ∧
        Handler.onMapClickAddIdea ∈ handlers) ∧
      (toggleAddIdeaMode w).addIdeaBtn.textContent = lit "Отменить добавление" ∧
      lit "btn-warning" ∈ (toggleAddIdeaMode w).addIdeaBtn.classList ∧
      lit "btn-success" ∉ (toggleAddIdeaMode w).addIdeaBtn.classList) ∧
    ((toggleAddIdeaMode (toggleAddIdeaMode w)).addIdeaMode = w.addIdeaMode ∧
      clickHandlersOf (toggleAddIdeaMode (toggleAddIdeaMode w)) = clickHandlersOf w ∧
      (toggleAddIdeaMode (toggleAddIdeaMode w)).addIdeaBtn.textContent
        = w.addIdeaBtn.textContent ∧
      (∀ c, c ∈ (toggleAddIdeaMode (toggleAddIdeaMode w)).addIdeaBtn.classList
        ↔ c ∈ w.addIdeaBtn.classList)) := by
  obtain ⟨m, hm⟩ := isSome_get _ hmap
  have hnot : Handler.onMapClickAddIdea ∉ m.clickHandlers :=
    hdetached m.clickHandlers (by simp [clickHandlersOf, hm])
  have hne : lit "btn-success" ≠ lit "btn-warning" := by decide
  have h1 : toggleAddIdeaMode w =
      { w with
        addIdeaMode := true,
        mapInstance := some
          { m with
            clickHandlers := listenOn m.clickHandlers Handler.onMapClickAddIdea,
            controls := m.controls ++
              [Control.attribution (lit "Кликните на карте для добавления идеи")] },
        addIdeaBtn :=
          { textContent := lit "Отменить добавление",
            classList :=
              classAdd (classRemove w.addIdeaBtn.classList (lit "btn-success"))
                (lit "btn-warning") } } := by
    simp [toggleAddIdeaMode, hm, hmode]
  have h2 : toggleAddIdeaMode (toggleAddIdeaMode w) =
      { w with
        addIdeaMode := false,
        mapInstance := some
          { m with
            clickHandlers :=
              listenOff (listenOn m.clickHandlers Handler.onMapClickAddIdea)
                Handler.onMapClickAddIdea,
            controls := m.controls ++
              [Control.attribution (lit "Кликните на карте для добавления идеи")] },
        addIdeaBtn :=
          { textContent := lit "Добавить идею на карте",
            classList :=
              classAdd
                (classRemove
                  (classAdd (classRemove w.addIdeaBtn.classList (lit "btn-success"))
                    (lit "btn-warning"))
                  (lit "btn-warning"))
                (lit "btn-success") } } := by
    rw [h1]
    simp [toggleAddIdeaMode]
  refine ⟨?_, ?_⟩
  · rw [h1]
    refine ⟨rfl, ⟨_, rfl, ?_⟩, rfl, ?_, ?_⟩
    · simp only [listenOn]
      split
      · assumption
      · simp
    · exact (mem_classAdd _ _ _).mpr (Or.inr rfl)
    · intro hmem
      rcases (mem_classAdd _ _ _).mp hmem with h | h
      · exact ((mem_classRemove _ _ _).mp h).2 rfl
      · exact hne h
  · rw [h2]
    refine ⟨by simp [hmode], ?_, by simp [hlabel], ?_⟩
    · simp [clickHandlersOf, hm, listenOff_listenOn _ _ hnot]
    · intro c
      simp only [mem_classAdd, mem_classRemove]
      constructor
      · rintro (⟨(⟨hc, _⟩ | hc), hcw⟩ | hc)
        · exact hc
        · exact absurd hc hcw
        · rw [hc]; exact hsuccess
      · intro hc
        by_cases hcs : c = lit "btn-success"
        · exact Or.inr hcs
        · refine Or.inl ⟨Or.inl ⟨hc, hcs⟩, ?_⟩
          intro hcw
          exact hwarning (hcw ▸ hc)

/-- Witness of C7 on the sample map page. -/
theorem toggle_twice_restores_witness :
    (sampleMapPage.mapInstance.isSome = true ∧ sampleMapPage.addIdeaMode = false ∧
      sampleMapPage.addIdeaBtn.textContent = lit "Добавить идею на карте") ∧
    (toggleAddIdeaMode sampleMapPage).addIdeaMode = true ∧
    clickHandlersOf (toggleAddIdeaMode (toggleAddIdeaMode sampleMapPage))
      = clickHandlersOf sampleMapPage ∧
    (toggleAddIdeaMode (toggleAddIdeaMode sampleMapPage)).addIdeaBtn.textContent
      = sampleMapPage.addIdeaBtn.textContent := by
  have h := toggle_twice_restores sampleMapPage (by decide) (by decide) (by decide)
    (by decide) (by decide) (by decide)
  exact ⟨⟨by decide, by decide, by decide⟩, h.1.1, h.2.2.1, h.2.2.2.1⟩

/-! ## Initialising the map -/

theorem loadIdeasOnMap_mapInstance (w : World) :
    (loadIdeasOnMap w).mapInstance = w.mapInstance := by
  unfold loadIdeasOnMap
  split <;> rfl

theorem initMap_creates (lat lng zoom : JSNumber) (w : World) :
    (initMap lat lng zoom w).1.mapInstance.isSome = true := by
  unfold initMap
  split
  · next m h => simp [h]
  · simp [loadIdeasOnMap_mapInstance]

/-- C9: once a map handle exists, `initMap` with any arguments leaves the whole
page state unchanged (no new map, tile layer, marker group or control, no
request logged, `mapInstance` and `markersLayer` as before) and returns the
existing handle; in particular a second call after any first call is such a
no-op. -/
theorem initMap_idempotent (w : World) (lat lng zoom : JSNumber)
    (hmap : w.mapInstance.isSome = true) :
    initMap lat lng zoom w = (w, w.mapInstance) ∧
    ∀ (w0 : World) (lat0 lng0 zoom0 : JSNumber),
      initMap lat lng zoom (initMap lat0 lng0 zoom0 w0).1
        = ((initMap lat0 lng0 zoom0 w0).1, (initMap lat0 lng0 zoom0 w0).1.mapInstance) := by
  have key : ∀ v : World, v.mapInstance.isSome = true →
      initMap lat lng zoom v = (v, v.mapInstance) := by
    intro v hv
    obtain ⟨m, hm⟩ := isSome_get _ hv
    simp [initMap, hm]
  exact ⟨key w hmap, fun w0 lat0 lng0 zoom0 => key _ (initMap_creates lat0 lng0 zoom0 w0)⟩

/-- Witness of C9: a second `initMap` on the sample map page. -/
theorem initMap_idempotent_witness :
    sampleMapPage.mapInstance.isSome = true ∧
    initMap (JSNumber.num 1) (JSNumber.num 2) (JSNumber.num 3) sampleMapPage
      = (sampleMapPage, sampleMapPage.mapInstance) :=
  ⟨by decide,
    (initMap_idempotent sampleMapPage (JSNumber.num 1) (JSNumber.num 2) (JSNumber.num 3)
      (by decide)).1⟩

/-! ## The arguments of the first `initMap` -/

theorem createdMarkers_append (stamp : Nat) (xs ys : List (ℚ × ℚ)) :
    createdMarkers stamp (xs ++ ys)
      = createdMarkers stamp xs ++ createdMarkers (stamp + xs.length) ys := by
  induction xs generalizing stamp with
  | nil => simp [createdMarkers]
  | cons e rest ih =>
    have hlen : stamp + 1 + rest.length = stamp + (rest.length + 1) := by omega
    show createdMarkers stamp (e :: (rest ++ ys)) = _
    simp only [List.cons_append, createdMarkers, ih, List.length_cons, hlen]

theorem clickAll_spec (clicks : List (ℚ × ℚ)) (w : World) (m : MapWidget)
    (hmap : w.mapInstance = some m) :
    tempMarkersOf (clickAll clicks w) = m.tempMarkers ++ createdMarkers w.fresh clicks ∧
    (clickAll clicks w).modalHiddenListeners
      = w.modalHiddenListeners ++ (createdMarkers w.fresh clicks).map (fun t => t.stamp) ∧
    (clickAll clicks w).mapInstance.isSome = true := by
  induction clicks generalizing w m with
  | nil => simp [clickAll, tempMarkersOf, createdMarkers, hmap]
  | cons e rest ih =>
    have hstep : (onMapClickAddIdea e.1 e.2 w).mapInstance
        = some { m with tempMarkers := m.tempMarkers ++ [{ stamp := w.fresh, lat := e.1, lng := e.2 }] } := by
      simp [onMapClickAddIdea, hmap]
    have hfresh : (onMapClickAddIdea e.1 e.2 w).fresh = w.fresh + 1 := by
      simp [onMapClickAddIdea, hmap]
    have hlisten : (onMapClickAddIdea e.1 e.2 w).modalHiddenListeners
        = w.modalHiddenListeners ++ [w.fresh] := by
      simp [onMapClickAddIdea, hmap]
    obtain ⟨h1, h2, h3⟩ := ih (onMapClickAddIdea e.1 e.2 w) _ hstep
    have hfold : clickAll (e :: rest) w = clickAll rest (onMapClickAddIdea e.1 e.2 w) := rfl
    rw [hfold, h1, h2, hfresh, hlisten]
    simp [createdMarkers, h3]

theorem foldl_removeTempMarker (stamps : List Nat) (w : World) (m : MapWidget)
    (hmap : w.mapInstance = some m) :
    tempMarkersOf (stamps.foldl removeTempMarker w)
      = m.tempMarkers.filter (fun t => decide (t.stamp ∉ stamps)) := by
  induction stamps generalizing w m with
  | nil => simp [tempMarkersOf, hmap]
  | cons s rest ih =>
    have hstep : (removeTempMarker w s).mapInstance
        = some { m with tempMarkers := m.tempMarkers.filter (fun t => decide (t.stamp ≠ s)) } := by
      simp [removeTempMarker, hmap]
    rw [List.foldl_cons, ih _ _ hstep]
    simp only [List.filter_filter]
    congr 1
    funext t
    simp [List.mem_cons, not_or, Bool.and_comm]

theorem foldl_removeTempMarker_none (stamps : List Nat) (w : World)
    (hmap : w.mapInstance = none) :
    (stamps.foldl removeTempMarker w).mapInstance = none := by
  induction stamps generalizing w with
  | nil => exact hmap
  | cons s rest ih =>
    rw [List.foldl_cons]
    exact ih _ (by simp [removeTempMarker, hmap])

theorem modalHidden_spec (w : World) :
    tempMarkersOf (modalHidden w)
      = (tempMarkersOf w).filter (fun t => decide (t.stamp ∉ w.modalHiddenListeners)) := by
  rcases hmap : w.mapInstance with _ | m
  · have h := foldl_removeTempMarker_none w.modalHiddenListeners
      { w with modalVisible := false, modalHiddenListeners := [] } hmap
    simp only [modalHidden, tempMarkersOf]
    rw [h, hmap]
    rfl
  · have h := foldl_removeTempMarker w.modalHiddenListeners
      { w with modalVisible := false, modalHiddenListeners := [] } m hmap
    simp only [modalHidden, tempMarkersOf, hmap] at h ⊢
    exact h

theorem foldl_removeTempMarker_listeners (stamps : List Nat) (w : World) :
    (stamps.foldl removeTempMarker w).modalHiddenListeners = w.modalHiddenListeners := by
  induction stamps generalizing w with
  | nil => rfl
  | cons s rest ih =>
    rw [List.foldl_cons, ih]
    unfold removeTempMarker
    split <;> rfl

theorem last_createdMarker (stamp : Nat) (clicks : List (ℚ × ℚ)) (e : ℚ × ℚ)
    (hlast : clicks.getLast? = some e) :
    ({ stamp := stamp + (clicks.length - 1), lat := e.1, lng := e.2 } : TempMarker)
      ∈ createdMarkers stamp clicks := by
  have hsplit : clicks.dropLast ++ [e] = clicks := List.dropLast_append_getLast? e hlast
  have hlen : clicks.dropLast.length = clicks.length - 1 := List.length_dropLast clicks
  rw [← hsplit, createdMarkers_append]
  simp [createdMarkers, hlen]

/-- C8: on an initialised map, after any sequence of clicks handled by
`onMapClickAddIdea` every marker the clicks created is on the map, and after
one `hidden.bs.modal` event no marker with the stamp of a created one is left,
the most recently created one in particular; when every temporary marker
present before the clicks had its removal listener pending, no temporary
marker is left at all, and no listener stays registered. -/
theorem temp_markers_removed_on_close (w : World) (clicks : List (ℚ × ℚ))
    (hmap : w.mapInstance.isSome = true) :
    (∀ t ∈ createdMarkers w.fresh clicks, t ∈ tempMarkersOf (clickAll clicks w)) ∧
    (∀ t ∈ createdMarkers w.fresh clicks,
      ∀ r ∈ tempMarkersOf (modalHidden (clickAll clicks w)), r.stamp ≠ t.stamp) ∧
    (∀ e, clicks.getLast? = some e →
      ({ stamp := w.fresh + (clicks.length - 1), lat := e.1, lng := e.2 } : TempMarker)
        ∈ tempMarkersOf (clickAll clicks w) ∧
      ({ stamp := w.fresh + (clicks.length - 1), lat := e.1, lng := e.2 } : TempMarker)
        ∉ tempMarkersOf (modalHidden (clickAll clicks w))) ∧
    ((∀ t ∈ tempMarkersOf w, t.stamp ∈ w.modalHiddenListeners) →
      tempMarkersOf (modalHidden (clickAll clicks w)) = []) ∧
    (modalHidden (clickAll clicks w)).modalHiddenListeners = [] := by
  obtain ⟨m, hm⟩ := isSome_get _ hmap
  obtain ⟨hmarkers, hlisteners, _⟩ := clickAll_spec clicks w m hm
  have hon : ∀ t ∈ createdMarkers w.fresh clicks, t ∈ tempMarkersOf (clickAll clicks w) := by
    intro t ht
    rw [hmarkers]
    exact List.mem_append_right _ ht
  have hoff : ∀ t ∈ createdMarkers w.fresh clicks,
      ∀ r ∈ tempMarkersOf (modalHidden (clickAll clicks w)), r.stamp ≠ t.stamp := by
    intro t ht r hr heq
    rw [modalHidden_spec, List.mem_filter, hlisteners] at hr
    have hnot := of_decide_eq_true hr.2
    apply hnot
    rw [heq]
    exact List.mem_append_right _ (List.mem_map_of_mem _ ht)
  refine ⟨hon, hoff, ?_, ?_, ?_⟩
  · intro e he
    have hmem := last_createdMarker w.fresh clicks e he
    exact ⟨hon _ hmem, fun hr => hoff _ hmem _ hr rfl⟩
  · intro htracked
    rw [modalHidden_spec, List.filter_eq_nil_iff]
    intro t ht
    rw [hmarkers, List.mem_append] at ht
    rw [hlisteners]
    simp only [decide_not, Bool.not_eq_true', decide_eq_false_iff_not, not_not]
    rcases ht with ht | ht
    · have : t ∈ tempMarkersOf w := by simpa [tempMarkersOf, hm] using ht
      exact List.mem_append_left _ (htracked t this)
    · exact List.mem_append_right _ (List.mem_map_of_mem _ ht)
  · unfold modalHidden
    rw [foldl_removeTempMarker_listeners]

/-- Witness of C8: two clicks on the sample map page, then the modal closes. -/
theorem temp_markers_removed_on_close_witness :
    sampleMapPage.mapInstance.isSome = true ∧
    ({ stamp := sampleMapPage.fresh + 1, lat := 3, lng := 4 } : TempMarker)
      ∈ tempMarkersOf (clickAll [(1, 2), (3, 4)] sampleMapPage) ∧
    ({ stamp := sampleMapPage.fresh + 1, lat := 3, lng := 4 } : TempMarker)
      ∉ tempMarkersOf (modalHidden (clickAll [(1, 2), (3, 4)] sampleMapPage)) ∧
    tempMarkersOf (modalHidden (clickAll [(1, 2), (3, 4)] sampleMapPage)) = [] := by
  have h := temp_markers_removed_on_close sampleMapPage [(1, 2), (3, 4)] (by decide)
  have hlast := h.2.2.1 (3, 4) rfl
  exact ⟨by decide, hlast.1, hlast.2, h.2.2.2.1 (by decide)⟩

end GorodIdeiy
